import Mathlib

/-!
Verification of the dopio_server chart registry and retention engine,
a shallow embedding of `src/chart.rs` (with `src/error.rs`).

Modelling decisions:
* `f64` sample values are modelled as `ℚ`: the core stores samples
  opaquely (no arithmetic is ever performed on them), and every sample
  appearing in the spec's scenarios is exactly representable.
* `VecDeque<f64>` is a `List ℚ`; `push_back` is append, `pop_front` is
  `List.tail`.
* `HashMap<String, _>` is an association list whose `insert` replaces
  the value of an existing key in place and appends a fresh key.
* `std::time::Duration` is a `secs`/`nanos` pair of naturals.
* The `endorphin::HashMap` with `TTIPolicy` is an external crate; it is
  modelled from the spec (see `Entry`), with a logical clock `now : Nat`
  passed to every registry operation.
* `serde_json::to_string` is modelled as producing a JSON syntax tree
  (`Json`) following serde's derived serialization: structs become
  objects with their field names, tuples become arrays, a unit enum
  variant becomes its bare tag string, a newtype variant becomes a
  one-field object, and `Range` serializes with keys "start" and "end".

The spec's error names map to `src/error.rs` as: `UnknownLabel` =
`InvalidLineLabelError`, `UnknownChart` = `InvalidChartNumberError`,
`DuplicateId` = `AlreadyExistIndexError`.
-/

namespace Dopio

/-- The error enum of `src/error.rs`. -/
inductive Error where
  | invalidLineLabelError
  | invalidChartNumberError
  | alreadyExistIndexError
  deriving DecidableEq

/-- `ChartType` of `src/chart.rs`: `Stack` is the spec's `Unbounded`
retention policy, `PassThru viewport_size` is `SlidingWindow(capacity)`. -/
inductive ChartType where
  | stack
  | passThru (viewport_size : Nat)

/-- `LineColor` of `src/chart.rs`; the `u8` channels are naturals. -/
structure LineColor where
  r : Nat
  g : Nat
  b : Nat

/-- `LineColor::init`. -/
def LineColor.init (r g b : Nat) : LineColor :=
  { r := r, g := g, b := b }

/-- `std::time::Duration`: seconds and nanoseconds. -/
structure Duration where
  secs : Nat
  nanos : Nat

/-- `Duration::from_millis`. -/
def Duration.from_millis (ms : Nat) : Duration :=
  { secs := ms / 1000, nanos := (ms % 1000) * 1000000 }

/-- `std::ops::Range<f64>`; the Rust field `end` is a Lean keyword and is
named `stop` here (it still serializes under the key "end"). -/
structure Range where
  start : ℚ
  stop : ℚ

/-- `ChartInfo` of `src/chart.rs`. -/
structure ChartInfo where
  caption : String
  chart_type : ChartType
  interval : Duration
  y_range : Range

/-- One line: the ordered sample sequence and its display color. -/
abbrev Line := List ℚ × LineColor

/-- The `lines` map of a `Chart`. -/
abbrev Lines := List (String × Line)

/-- `HashMap::get` on the lines map. -/
def Lines.get (ls : Lines) (label : String) : Option Line :=
  match ls with
  | [] => none
  | (k, v) :: rest => if k = label then some v else Lines.get rest label

/-- `HashMap::insert` on the lines map: replaces the value of an existing
key in place, appends a fresh key. -/
def Lines.insert (ls : Lines) (label : String) (v : Line) : Lines :=
  match ls with
  | [] => [(label, v)]
  | (k, w) :: rest =>
      if k = label then (k, v) :: rest else (k, w) :: Lines.insert rest label v

/-- `Chart` of `src/chart.rs`. -/
structure Chart where
  info : ChartInfo
  lines : Lines

/-- `Chart::new`. -/
def Chart.new (caption : String) (chart_type : ChartType) (interval : Duration)
    (y_range : Range) : Chart :=
  { info := { caption := caption, chart_type := chart_type, interval := interval,
              y_range := y_range },
    lines := [] }

/-- `Chart::new_label`: unconditionally inserts `(VecDeque::new(), color)`. -/
def Chart.new_label (c : Chart) (label : String) (color : LineColor) : Chart :=
  { c with lines := Lines.insert c.lines label ([], color) }

/-- The `match &self.info.chart_type` body of `Chart::insert_data`:
`Stack` pushes back; `PassThru(viewport_size)` pops the front first when
the line already holds exactly `viewport_size` samples
(`pop_front` then `push_back` is `List.tail` then append). -/
def lineStep (chart_type : ChartType) (line : List ℚ) (data : ℚ) : List ℚ :=
  match chart_type with
  | .stack => line ++ [data]
  | .passThru viewport_size =>
      if line.length = viewport_size then line.tail ++ [data] else line ++ [data]

/-- `Chart::insert_data`: fails with `InvalidLineLabelError` when the label
is absent, otherwise mutates that label's sample sequence in place. -/
def Chart.insert_data (c : Chart) (label : String) (data : ℚ) :
    Except Error Chart :=
  match Lines.get c.lines label with
  | none => .error Error.invalidLineLabelError
  | some (line, color) =>
      .ok { c with
            lines := Lines.insert c.lines label
              (lineStep c.info.chart_type line data, color) }

/-- `Chart::clear`. -/
def Chart.clear (c : Chart) : Chart :=
  { c with lines := [] }

/-- Iterated `Chart::insert_data` with one value after another. -/
def Chart.insertMany (c : Chart) (label : String) (vs : List ℚ) :
    Except Error Chart :=
  match vs with
  | [] => .ok c
  | v :: rest =>
      match Chart.insert_data c label v with
      | .error e => .error e
      | .ok c' => Chart.insertMany c' label rest

theorem Lines.get_insert_self (ls : Lines) (label : String) (v : Line) :
    Lines.get (Lines.insert ls label v) label = some v := by
  induction ls with
  | nil => simp [Lines.insert, Lines.get]
  | cons hd tl ih =>
      obtain ⟨k, w⟩ := hd
      by_cases hk : k = label
      · simp [Lines.insert, Lines.get, hk]
      · simp [Lines.insert, Lines.get, hk, ih]

theorem Lines.get_insert_ne (ls : Lines) (label l' : String) (v : Line)
    (h : l' ≠ label) :
    Lines.get (Lines.insert ls label v) l' = Lines.get ls l' := by
  have h' : ¬ label = l' := fun hh => h hh.symm
  induction ls with
  | nil => simp [Lines.insert, Lines.get, h']
  | cons hd tl ih =>
      obtain ⟨k, w⟩ := hd
      by_cases hk : k = label
      · subst hk
        simp [Lines.insert, Lines.get, h']
      · simp [Lines.insert, Lines.get, hk, ih]

theorem Lines.insert_get_self (ls : Lines) (label : String) (v : Line)
    (h : Lines.get ls label = some v) :
    Lines.insert ls label v = ls := by
  induction ls with
  | nil => simp [Lines.get] at h
  | cons hd tl ih =>
      obtain ⟨k, w⟩ := hd
      by_cases hk : k = label
      · simp [Lines.get, hk] at h
        simp [Lines.insert, hk, h]
      · simp [Lines.get, hk] at h
        simp [Lines.insert, hk, ih h]

theorem Lines.insert_insert (ls : Lines) (label : String) (v w : Line) :
    Lines.insert (Lines.insert ls label v) label w = Lines.insert ls label w := by
  induction ls with
  | nil => simp [Lines.insert]
  | cons hd tl ih =>
      obtain ⟨k, u⟩ := hd
      by_cases hk : k = label
      · simp [Lines.insert, hk]
      · simp [Lines.insert, hk, ih]

theorem Chart.insert_data_eq (c : Chart) (label : String) (data : ℚ)
    (line : List ℚ) (color : LineColor)
    (h : Lines.get c.lines label = some (line, color)) :
    Chart.insert_data c label data =
      .ok { c with lines := Lines.insert c.lines label (lineStep c.info.chart_type line data, color) } := by
  simp [Chart.insert_data, h]

theorem Chart.insertMany_eq (vs : List ℚ) (c : Chart) (label : String)
    (line : List ℚ) (color : LineColor)
    (h : Lines.get c.lines label = some (line, color)) :
    Chart.insertMany c label vs =
      .ok { c with lines := Lines.insert c.lines label (List.foldl (lineStep c.info.chart_type) line vs, color) } := by
  induction vs generalizing c line with
  | nil =>
      simp [Chart.insertMany, Lines.insert_get_self c.lines label (line, color) h]
  | cons v rest ih =>
      rw [Chart.insertMany, Chart.insert_data_eq c label v line color h]
      show Chart.insertMany { c with lines := Lines.insert c.lines label (lineStep c.info.chart_type line v, color) } label rest = _
      rw [ih _ (lineStep c.info.chart_type line v)
        (Lines.get_insert_self c.lines label _)]
      simp [Lines.insert_insert, List.foldl_cons]

theorem foldl_lineStep_stack (vs l : List ℚ) :
    List.foldl (lineStep ChartType.stack) l vs = l ++ vs := by
  induction vs generalizing l with
  | nil => simp
  | cons v rest ih => simp [lineStep, ih]

theorem foldl_lineStep_passThru (cap : Nat) (hcap : 1 ≤ cap) (vs : List ℚ) :
    ∀ l : List ℚ, l.length ≤ cap →
      List.foldl (lineStep (ChartType.passThru cap)) l vs =
        (l ++ vs).drop (l.length + vs.length - cap) := by
  induction vs with
  | nil =>
      intro l hl
      have hz : l.length - cap = 0 := Nat.sub_eq_zero_of_le hl
      simp [hz]
  | cons v rest ih =>
      intro l hl
      rw [List.foldl_cons]
      by_cases hfull : l.length = cap
      · have hne : l ≠ [] := by
          intro hnil
          rw [hnil] at hfull
          simp at hfull
          omega
        obtain ⟨a, t, rfl⟩ := List.exists_cons_of_ne_nil hne
        have hstep : lineStep (ChartType.passThru cap) (a :: t) v = t ++ [v] := by
          simp [lineStep, hfull]
        rw [hstep]
        have hlen : (t ++ [v]).length ≤ cap := by
          simp at hfull ⊢
          omega
        rw [ih (t ++ [v]) hlen]
        have harith : (t ++ [v]).length + rest.length - cap = rest.length := by
          simp at hfull ⊢
          omega
        have harith2 : (a :: t).length + (v :: rest).length - cap =
            rest.length + 1 := by
          simp at hfull ⊢
          omega
        rw [harith, harith2]
        simp [List.drop_succ_cons]
      · have hlt : l.length < cap := lt_of_le_of_ne hl hfull
        have hstep : lineStep (ChartType.passThru cap) l v = l ++ [v] := by
          simp [lineStep, hfull]
        rw [hstep]
        have hlen : (l ++ [v]).length ≤ cap := by
          simp
          omega
        rw [ih (l ++ [v]) hlen]
        have harith : (l ++ [v]).length + rest.length =
            l.length + (v :: rest).length := by
          simp
          omega
        rw [harith]
        simp

/-- Modelled from the spec: the `endorphin::HashMap` with
`endorphin::policy::TTIPolicy` used by `Charts` is an external crate whose
code is not in the sources.  Per the spec, each entry carries the idle
timeout supplied at insertion and a last-touched timestamp; an entry is
live at time `now` iff it has not been idle for longer than its timeout;
expired entries are filtered at read time (lazy removal, observably
equivalent to absence); every successful lookup or insert records the
access time. -/
structure Entry where
  chart : Chart
  tti : Nat
  lastAccess : Nat

/-- The registry map of `Charts`, keyed by the chart index. -/
abbrev Registry := List (Nat × Entry)

/-- Raw lookup ignoring expiry (the physical content of the map). -/
def Registry.lookupRaw (r : Registry) (idx : Nat) : Option Entry :=
  match r with
  | [] => none
  | (k, e) :: rest => if k = idx then some e else Registry.lookupRaw rest idx

/-- An entry is live at `now` iff it has not been idle for longer than its
idle timeout. -/
def Entry.live (e : Entry) (now : Nat) : Bool :=
  now ≤ e.lastAccess + e.tti

/-- Lookup as seen by callers: expired entries are invisible. -/
def Registry.find (r : Registry) (now idx : Nat) : Option Entry :=
  match Registry.lookupRaw r idx with
  | none => none
  | some e => if Entry.live e now then some e else none

/-- Store `c` as the chart of the entry at `idx` and record the access
time, keeping the configured idle timeout. -/
def Registry.touch (r : Registry) (now idx : Nat) (c : Chart) : Registry :=
  match r with
  | [] => []
  | (k, e) :: rest =>
      if k = idx then (k, { e with chart := c, lastAccess := now }) :: rest
      else (k, e) :: Registry.touch rest now idx c

/-- Remove any physical entry at `idx`. -/
def Registry.erase (r : Registry) (idx : Nat) : Registry :=
  match r with
  | [] => []
  | (k, e) :: rest =>
      if k = idx then Registry.erase rest idx else (k, e) :: Registry.erase rest idx

/-- `Charts::contains`. -/
def Charts.contains (r : Registry) (now idx : Nat) : Bool :=
  (Registry.find r now idx).isSome

/-- `Charts::insert_chart`: fails with `AlreadyExistIndexError` when a live
entry occupies `idx`, otherwise stores the chart with idle timeout `tti`. -/
def Charts.insert_chart (r : Registry) (now idx : Nat) (chart : Chart) (tti : Nat) :
    Except Error Unit × Registry :=
  if Charts.contains r now idx then (.error Error.alreadyExistIndexError, r)
  else (.ok (), Registry.erase r idx ++ [(idx, { chart := chart, tti := tti, lastAccess := now })])

/-- `Charts::new_label`: fails with `InvalidChartNumberError` when `idx` is
absent, otherwise forwards to `Chart::new_label` (which cannot fail). -/
def Charts.new_label (r : Registry) (now idx : Nat) (label : String) (color : LineColor) :
    Except Error Unit × Registry :=
  match Registry.find r now idx with
  | none => (.error Error.invalidChartNumberError, r)
  | some e => (.ok (), Registry.touch r now idx (Chart.new_label e.chart label color))

/-- `Charts::insert_data`: fails with `InvalidChartNumberError` when `idx`
is absent, otherwise forwards to `Chart::insert_data` (the successful
lookup records the access time even when the label check then fails). -/
def Charts.insert_data (r : Registry) (now idx : Nat) (label : String) (data : ℚ) :
    Except Error Unit × Registry :=
  match Registry.find r now idx with
  | none => (.error Error.invalidChartNumberError, r)
  | some e =>
      match Chart.insert_data e.chart label data with
      | .error err => (.error err, Registry.touch r now idx e.chart)
      | .ok c => (.ok (), Registry.touch r now idx c)

/-- JSON syntax trees, the codomain of the serialization model. -/
inductive Json where
  | str (s : String)
  | num (q : ℚ)
  | arr (elems : List Json)
  | obj (fields : List (String × Json))

/-- Serde serialization of `LineColor`: an object with the field names. -/
def LineColor.toJson (c : LineColor) : Json :=
  .obj [("r", .num c.r), ("g", .num c.g), ("b", .num c.b)]

/-- Serde serialization of one line: a tuple becomes a two-element array. -/
def Line.toJson (l : Line) : Json :=
  .arr [.arr (l.1.map Json.num), LineColor.toJson l.2]

/-- Serde serialization of the lines map: an object keyed by label. -/
def linesToJson (ls : Lines) : Json :=
  .obj (ls.map (fun p => (p.1, Line.toJson p.2)))

/-- Serde serialization of `ChartType`: the unit variant `Stack` is its
bare tag string, the newtype variant `PassThru` a one-field object. -/
def ChartType.toJson : ChartType → Json
  | .stack => .str "Stack"
  | .passThru n => .obj [("PassThru", .num n)]

/-- Serde serialization of `Duration`: seconds and nanoseconds. -/
def Duration.toJson (d : Duration) : Json :=
  .obj [("secs", .num d.secs), ("nanos", .num d.nanos)]

/-- Serde serialization of `Range<f64>`: keys "start" and "end". -/
def Range.toJson (r : Range) : Json :=
  .obj [("start", .num r.start), ("end", .num r.stop)]

/-- Serde serialization of `ChartInfo`. -/
def ChartInfo.toJson (i : ChartInfo) : Json :=
  .obj [("caption", .str i.caption), ("chart_type", ChartType.toJson i.chart_type),
        ("interval", Duration.toJson i.interval), ("y_range", Range.toJson i.y_range)]

/-- `Charts::get_lines_as_json_string`, with `serde_json::to_string`
modelled as the JSON tree it prints.  The successful read records the
access time (time-to-idle). -/
def Charts.get_lines_as_json (r : Registry) (now idx : Nat) :
    Except Error Json × Registry :=
  match Registry.find r now idx with
  | none => (.error Error.invalidChartNumberError, r)
  | some e => (.ok (linesToJson e.chart.lines), Registry.touch r now idx e.chart)

/-- `Charts::get_info_as_json_string`, with `serde_json::to_string`
modelled as the JSON tree it prints. -/
def Charts.get_info_as_json (r : Registry) (now idx : Nat) :
    Except Error Json × Registry :=
  match Registry.find r now idx with
  | none => (.error Error.invalidChartNumberError, r)
  | some e => (.ok (ChartInfo.toJson e.chart.info), Registry.touch r now idx e.chart)

theorem Registry.lookupRaw_touch_self (r : Registry) (now idx : Nat) (c : Chart) :
    Registry.lookupRaw (Registry.touch r now idx c) idx =
      (Registry.lookupRaw r idx).map (fun e => { e with chart := c, lastAccess := now }) := by
  induction r with
  | nil => simp [Registry.touch, Registry.lookupRaw]
  | cons hd tl ih =>
      obtain ⟨k, e⟩ := hd
      by_cases hk : k = idx
      · simp [Registry.touch, Registry.lookupRaw, hk]
      · simp [Registry.touch, Registry.lookupRaw, hk, ih]

theorem Registry.lookupRaw_touch_ne (r : Registry) (now idx j : Nat) (c : Chart)
    (h : j ≠ idx) :
    Registry.lookupRaw (Registry.touch r now idx c) j = Registry.lookupRaw r j := by
  induction r with
  | nil => simp [Registry.touch, Registry.lookupRaw]
  | cons hd tl ih =>
      obtain ⟨k, e⟩ := hd
      by_cases hk : k = idx
      · subst hk
        have h' : ¬ k = j := fun hh => h hh.symm
        simp [Registry.touch, Registry.lookupRaw, h']
      · simp [Registry.touch, Registry.lookupRaw, hk, ih]

theorem Registry.lookupRaw_erase_self (r : Registry) (idx : Nat) :
    Registry.lookupRaw (Registry.erase r idx) idx = none := by
  induction r with
  | nil => simp [Registry.erase, Registry.lookupRaw]
  | cons hd tl ih =>
      obtain ⟨k, e⟩ := hd
      by_cases hk : k = idx
      · simp [Registry.erase, hk, ih]
      · simp [Registry.erase, Registry.lookupRaw, hk, ih]

theorem Registry.lookupRaw_append_right (r1 r2 : Registry) (idx : Nat)
    (h : Registry.lookupRaw r1 idx = none) :
    Registry.lookupRaw (r1 ++ r2) idx = Registry.lookupRaw r2 idx := by
  induction r1 with
  | nil => simp [Registry.lookupRaw]
  | cons hd tl ih =>
      obtain ⟨k, e⟩ := hd
      by_cases hk : k = idx
      · simp [Registry.lookupRaw, hk] at h
      · simp [Registry.lookupRaw, hk] at h ⊢
        exact ih h

theorem Registry.lookupRaw_of_find (r : Registry) (now idx : Nat) (e : Entry)
    (h : Registry.find r now idx = some e) :
    Registry.lookupRaw r idx = some e ∧ Entry.live e now = true := by
  unfold Registry.find at h
  cases hraw : Registry.lookupRaw r idx with
  | none =>
      rw [hraw] at h
      simp at h
  | some e0 =>
      rw [hraw] at h
      by_cases hl : Entry.live e0 now
      · simp [hl] at h
        subst h
        exact ⟨rfl, hl⟩
      · simp [hl] at h

/-- With sliding-window capacity 0 the trim never fires after the first
insertion (a length ≥ 1 never equals 0 again), so samples accumulate. -/
theorem foldl_lineStep_passThru_zero (vs : List ℚ) :
    List.foldl (lineStep (ChartType.passThru 0)) [] vs = vs := by
  have haux : ∀ (ws l : List ℚ), l ≠ [] →
      List.foldl (lineStep (ChartType.passThru 0)) l ws = l ++ ws := by
    intro ws
    induction ws with
    | nil =>
        intro l _
        simp
    | cons w ws ih =>
        intro l hl
        rw [List.foldl_cons]
        have hne : ¬ l.length = 0 := fun hz => hl (List.length_eq_zero.mp hz)
        have hstep : lineStep (ChartType.passThru 0) l w = l ++ [w] := by
          simp [lineStep, hne]
        rw [hstep, ih (l ++ [w]) (by simp)]
        simp
  cases vs with
  | nil => rfl
  | cons v rest =>
      rw [List.foldl_cons]
      have hstep : lineStep (ChartType.passThru 0) [] v = [v] := by
        simp [lineStep]
      rw [hstep, haux rest [v] (by simp)]
      rfl

/-- C1: under `SlidingWindow(cap)` with `cap ≥ 1`, inserting the values
`vs` into a freshly registered label leaves exactly the most recent
`min vs.length cap` values in insertion order: the whole of `vs` while
fewer than `cap` were inserted, and the last `cap` of them (length
exactly `cap`) once `vs.length ≥ cap`. -/
theorem sliding_window_retention (cap : Nat) (hcap : 1 ≤ cap) (caption : String)
    (interval : Duration) (y_range : Range) (label : String) (color : LineColor)
    (vs : List ℚ) :
    Chart.insertMany (Chart.new_label (Chart.new caption (ChartType.passThru cap) interval y_range) label color) label vs
      = .ok { info := { caption := caption, chart_type := ChartType.passThru cap,
                        interval := interval, y_range := y_range },
              lines := [(label, (vs.drop (vs.length - cap), color))] }
    ∧ (cap ≤ vs.length → (vs.drop (vs.length - cap)).length = cap)
    ∧ (vs.length < cap → vs.drop (vs.length - cap) = vs) := by
  refine ⟨?_, ?_, ?_⟩
  · have h0 : Lines.get (Chart.new_label (Chart.new caption (ChartType.passThru cap) interval y_range) label color).lines label = some ([], color) := by
      simp [Chart.new, Chart.new_label, Lines.insert, Lines.get]
    rw [Chart.insertMany_eq vs _ label [] color h0]
    have hfold := foldl_lineStep_passThru cap hcap vs [] (by simp)
    simp at hfold
    simp [Chart.new, Chart.new_label, Lines.insert, hfold]
  · intro h
    simp only [List.length_drop]
    omega
  · intro h
    have hz : vs.length - cap = 0 := by omega
    simp [hz]

/-- Witness for C1 at the spec's concrete scenario: capacity 3, inserting
1, 2, 3, 4 keeps [2, 3, 4]. -/
theorem sliding_window_retention_witness :
    Chart.insertMany (Chart.new_label (Chart.new "Temp" (ChartType.passThru 3) (Duration.from_millis 1000) { start := 0, stop := 100 }) "sensorA" (LineColor.init 255 0 0)) "sensorA" [1, 2, 3, 4]
      = .ok { info := { caption := "Temp", chart_type := ChartType.passThru 3,
                        interval := Duration.from_millis 1000, y_range := { start := 0, stop := 100 } },
              lines := [("sensorA", ([2, 3, 4], LineColor.init 255 0 0))] }
    ∧ (([1, 2, 3, 4] : List ℚ).drop (([1, 2, 3, 4] : List ℚ).length - 3)).length = 3 := by
  have h := sliding_window_retention 3 (by decide) "Temp" (Duration.from_millis 1000)
    { start := 0, stop := 100 } "sensorA" (LineColor.init 255 0 0) [1, 2, 3, 4]
  exact ⟨h.1, h.2.1 (by decide)⟩

/-- C2: under `Unbounded` (`Stack`), inserting the values `vs` into a
freshly registered label yields exactly `vs`: length `vs.length`, all
values, insertion order. -/
theorem unbounded_retention (caption : String) (interval : Duration) (y_range : Range)
    (label : String) (color : LineColor) (vs : List ℚ) :
    Chart.insertMany (Chart.new_label (Chart.new caption ChartType.stack interval y_range) label color) label vs
      = .ok { info := { caption := caption, chart_type := ChartType.stack,
                        interval := interval, y_range := y_range },
              lines := [(label, (vs, color))] } := by
  have h0 : Lines.get (Chart.new_label (Chart.new caption ChartType.stack interval y_range) label color).lines label = some ([], color) := by
    simp [Chart.new, Chart.new_label, Lines.insert, Lines.get]
  rw [Chart.insertMany_eq vs _ label [] color h0]
  have hfold := foldl_lineStep_stack vs ([] : List ℚ)
  simp at hfold
  simp [Chart.new, Chart.new_label, Lines.insert, hfold]

/-- C10: with sliding-window capacity exactly 0 the cap is not enforced:
inserting the values `vs` into a freshly registered label yields the whole
of `vs` — length `vs.length`, growing without bound — because the trim
only fires when the current length equals the capacity, which holds only
before the first insertion. -/
theorem capacity_zero_not_enforced (caption : String) (interval : Duration)
    (y_range : Range) (label : String) (color : LineColor) (vs : List ℚ) :
    Chart.insertMany (Chart.new_label (Chart.new caption (ChartType.passThru 0) interval y_range) label color) label vs
      = .ok { info := { caption := caption, chart_type := ChartType.passThru 0,
                        interval := interval, y_range := y_range },
              lines := [(label, (vs, color))] } := by
  have h0 : Lines.get (Chart.new_label (Chart.new caption (ChartType.passThru 0) interval y_range) label color).lines label = some ([], color) := by
    simp [Chart.new, Chart.new_label, Lines.insert, Lines.get]
  rw [Chart.insertMany_eq vs _ label [] color h0]
  simp [Chart.new, Chart.new_label, Lines.insert, foldl_lineStep_passThru_zero]

/-- C3: creating a chart under an absent id succeeds and makes `contains`
true; while that chart is still live, creating under the same id again
fails with `AlreadyExistIndexError` (`DuplicateId`), never overwrites,
and returns the registry — every chart's state included — unchanged. -/
theorem create_chart_duplicate_id (r : Registry) (now now2 idx : Nat)
    (chart chart2 : Chart) (tti tti2 : Nat)
    (h : Charts.contains r now idx = false) :
    Charts.insert_chart r now idx chart tti
      = (.ok (), Registry.erase r idx ++ [(idx, { chart := chart, tti := tti, lastAccess := now })])
    ∧ Charts.contains (Charts.insert_chart r now idx chart tti).2 now idx = true
    ∧ (Charts.contains (Charts.insert_chart r now idx chart tti).2 now2 idx = true →
        Charts.insert_chart (Charts.insert_chart r now idx chart tti).2 now2 idx chart2 tti2
          = (.error Error.alreadyExistIndexError, (Charts.insert_chart r now idx chart tti).2)) := by
  have e1 : Charts.insert_chart r now idx chart tti
      = (.ok (), Registry.erase r idx ++ [(idx, { chart := chart, tti := tti, lastAccess := now })]) := by
    simp [Charts.insert_chart, h]
  refine ⟨e1, ?_, ?_⟩
  · rw [e1]
    simp [Charts.contains, Registry.find,
      Registry.lookupRaw_append_right _ _ _ (Registry.lookupRaw_erase_self r idx),
      Registry.lookupRaw, Entry.live]
  · intro hc
    rw [e1] at hc ⊢
    simp [Charts.insert_chart, hc]

/-- Witness for C3: create chart 2 in an empty registry, then create it
again immediately — the duplicate fails and the registry is unchanged. -/
theorem create_chart_duplicate_id_witness :
    Charts.insert_chart [] 0 2 (Chart.new "Log" ChartType.stack (Duration.from_millis 500) { start := -1, stop := 1 }) 1000
      = (.ok (), [(2, { chart := Chart.new "Log" ChartType.stack (Duration.from_millis 500) { start := -1, stop := 1 }, tti := 1000, lastAccess := 0 })])
    ∧ Charts.contains (Charts.insert_chart [] 0 2 (Chart.new "Log" ChartType.stack (Duration.from_millis 500) { start := -1, stop := 1 }) 1000).2 0 2 = true
    ∧ Charts.insert_chart (Charts.insert_chart [] 0 2 (Chart.new "Log" ChartType.stack (Duration.from_millis 500) { start := -1, stop := 1 }) 1000).2 0 2 (Chart.new "Other" ChartType.stack (Duration.from_millis 500) { start := 0, stop := 1 }) 1000
      = (.error Error.alreadyExistIndexError, (Charts.insert_chart [] 0 2 (Chart.new "Log" ChartType.stack (Duration.from_millis 500) { start := -1, stop := 1 }) 1000).2) := by
  have h := create_chart_duplicate_id [] 0 0 2
    (Chart.new "Log" ChartType.stack (Duration.from_millis 500) { start := -1, stop := 1 })
    (Chart.new "Other" ChartType.stack (Duration.from_millis 500) { start := 0, stop := 1 })
    1000 1000 rfl
  exact ⟨h.1, h.2.1, h.2.2 h.2.1⟩

/-- C4: `insertSample` reports `InvalidChartNumberError` (`UnknownChart`)
whenever the chart id is absent, before any label check; with the chart
present but the label unregistered it reports `InvalidLineLabelError`
(`UnknownLabel`); with both present it succeeds. -/
theorem insert_sample_error_precedence (r : Registry) (now idx : Nat)
    (label : String) (v : ℚ) :
    (Registry.find r now idx = none →
      Charts.insert_data r now idx label v = (.error Error.invalidChartNumberError, r))
    ∧ (∀ e, Registry.find r now idx = some e → Lines.get e.chart.lines label = none →
      (Charts.insert_data r now idx label v).1 = .error Error.invalidLineLabelError)
    ∧ (∀ e line color, Registry.find r now idx = some e →
        Lines.get e.chart.lines label = some (line, color) →
      (Charts.insert_data r now idx label v).1 = .ok ()) := by
  refine ⟨?_, ?_, ?_⟩
  · intro hf
    simp [Charts.insert_data, hf]
  · intro e he hlab
    simp [Charts.insert_data, he, Chart.insert_data, hlab]
  · intro e line color he hlab
    simp [Charts.insert_data, he, Chart.insert_data, hlab]

/-- Witness for C4: an empty registry gives `UnknownChart`; a registry
holding chart 1 with only label "a" gives `UnknownLabel` for "b" and
success for "a". -/
theorem insert_sample_error_precedence_witness :
    Charts.insert_data [] 0 1 "a" 2 = (.error Error.invalidChartNumberError, [])
    ∧ (Charts.insert_data [(1, { chart := Chart.new_label (Chart.new "T" ChartType.stack (Duration.from_millis 1) { start := 0, stop := 1 }) "a" (LineColor.init 1 2 3), tti := 10, lastAccess := 0 })] 0 1 "b" 2).1 = .error Error.invalidLineLabelError
    ∧ (Charts.insert_data [(1, { chart := Chart.new_label (Chart.new "T" ChartType.stack (Duration.from_millis 1) { start := 0, stop := 1 }) "a" (LineColor.init 1 2 3), tti := 10, lastAccess := 0 })] 0 1 "a" 2).1 = .ok () := by
  refine ⟨(insert_sample_error_precedence [] 0 1 "a" 2).1 rfl, ?_, ?_⟩
  · exact (insert_sample_error_precedence _ 0 1 "b" 2).2.1
      { chart := Chart.new_label (Chart.new "T" ChartType.stack (Duration.from_millis 1) { start := 0, stop := 1 }) "a" (LineColor.init 1 2 3), tti := 10, lastAccess := 0 }
      rfl rfl
  · exact (insert_sample_error_precedence _ 0 1 "a" 2).2.2
      { chart := Chart.new_label (Chart.new "T" ChartType.stack (Duration.from_millis 1) { start := 0, stop := 1 }) "a" (LineColor.init 1 2 3), tti := 10, lastAccess := 0 }
      [] (LineColor.init 1 2 3) rfl rfl

theorem Lines.mem_map_of_get (ls : Lines) (l : String) (v : Line)
    (h : Lines.get ls l = some v) :
    (l, Line.toJson v) ∈ ls.map (fun p => (p.1, Line.toJson p.2)) := by
  induction ls with
  | nil => simp [Lines.get] at h
  | cons hd tl ih =>
      obtain ⟨k, w⟩ := hd
      by_cases hk : k = l
      · simp [Lines.get, hk] at h
        subst hk
        subst h
        rw [List.map_cons]
        exact List.mem_cons_self _ _
      · simp [Lines.get, hk] at h
        rw [List.map_cons]
        exact List.mem_cons_of_mem _ (ih h)

/-- C5: on an existing chart, `registerLabel` succeeds unconditionally and
(re)binds the label to an empty sample sequence with the given color —
discarding any previously accumulated samples — and the lines snapshot of
the updated chart maps the label to an empty array with that color. -/
theorem register_label_resets (r : Registry) (now idx : Nat) (label : String)
    (color : LineColor) (e : Entry)
    (h : Registry.find r now idx = some e) :
    (Charts.new_label r now idx label color).1 = .ok ()
    ∧ (∀ e', Registry.lookupRaw (Charts.new_label r now idx label color).2 idx = some e' →
        Lines.get e'.chart.lines label = some ([], color))
    ∧ (Charts.get_lines_as_json (Charts.new_label r now idx label color).2 now idx).1
        = .ok (linesToJson (Chart.new_label e.chart label color).lines)
    ∧ (label, Json.arr [Json.arr [], LineColor.toJson color])
        ∈ (Chart.new_label e.chart label color).lines.map (fun p => (p.1, Line.toJson p.2)) := by
  obtain ⟨hraw, hlive⟩ := Registry.lookupRaw_of_find r now idx e h
  have e1 : Charts.new_label r now idx label color
      = (.ok (), Registry.touch r now idx (Chart.new_label e.chart label color)) := by
    simp [Charts.new_label, h]
  have hraw' : Registry.lookupRaw (Registry.touch r now idx (Chart.new_label e.chart label color)) idx
      = some { e with chart := Chart.new_label e.chart label color, lastAccess := now } := by
    rw [Registry.lookupRaw_touch_self, hraw]
    rfl
  refine ⟨by rw [e1], ?_, ?_, ?_⟩
  · intro e' he'
    rw [e1] at he'
    simp at he'
    rw [hraw'] at he'
    have hee : e' = { e with chart := Chart.new_label e.chart label color, lastAccess := now } := by
      injection he' with hh
      exact hh.symm
    subst hee
    simp [Chart.new_label, Lines.get_insert_self]
  · rw [e1]
    simp [Charts.get_lines_as_json, Registry.find, hraw', Entry.live]
  · have hg : Lines.get (Chart.new_label e.chart label color).lines label = some ([], color) := by
      simp [Chart.new_label, Lines.get_insert_self]
    have hmem := Lines.mem_map_of_get (Chart.new_label e.chart label color).lines label ([], color) hg
    have hred : Line.toJson (([] : List ℚ), color) = Json.arr [Json.arr [], LineColor.toJson color] := rfl
    rw [hred] at hmem
    exact hmem

/-- Witness for C5: re-registering label "a" on a chart that already holds
samples under "a" resets it to the empty sequence with the new color. -/
theorem register_label_resets_witness :
    (Charts.new_label [(1, { chart := { info := (Chart.new "T" ChartType.stack (Duration.from_millis 1) { start := 0, stop := 1 }).info, lines := [("a", ([5, 6], LineColor.init 1 2 3))] }, tti := 10, lastAccess := 0 })] 0 1 "a" (LineColor.init 9 9 9)).1 = .ok ()
    ∧ (∀ e', Registry.lookupRaw (Charts.new_label [(1, { chart := { info := (Chart.new "T" ChartType.stack (Duration.from_millis 1) { start := 0, stop := 1 }).info, lines := [("a", ([5, 6], LineColor.init 1 2 3))] }, tti := 10, lastAccess := 0 })] 0 1 "a" (LineColor.init 9 9 9)).2 1 = some e' →
        Lines.get e'.chart.lines "a" = some ([], LineColor.init 9 9 9)) := by
  have h := register_label_resets
    [(1, { chart := { info := (Chart.new "T" ChartType.stack (Duration.from_millis 1) { start := 0, stop := 1 }).info, lines := [("a", ([5, 6], LineColor.init 1 2 3))] }, tti := 10, lastAccess := 0 })]
    0 1 "a" (LineColor.init 9 9 9)
    { chart := { info := (Chart.new "T" ChartType.stack (Duration.from_millis 1) { start := 0, stop := 1 }).info, lines := [("a", ([5, 6], LineColor.init 1 2 3))] }, tti := 10, lastAccess := 0 }
    rfl
  exact ⟨h.1, h.2.1⟩

/-- C6: a successful `insertSample` changes only the addressed label's
sample sequence — the metadata, every other label's line, and the
addressed label's color are unchanged — and the new sequence is the old
one with the value appended, possibly after removing the oldest sample;
a failed `insertSample` leaves every chart in the registry unchanged. -/
theorem insert_sample_frame (c : Chart) (label : String) (v : ℚ) :
    (∀ c', Chart.insert_data c label v = .ok c' →
      c'.info = c.info
      ∧ (∀ l', l' ≠ label → Lines.get c'.lines l' = Lines.get c.lines l')
      ∧ (∀ line color, Lines.get c.lines label = some (line, color) →
          Lines.get c'.lines label = some (lineStep c.info.chart_type line v, color)))
    ∧ (∀ ct line, lineStep ct line v = line ++ [v] ∨ lineStep ct line v = line.tail ++ [v])
    ∧ (∀ (r : Registry) (now idx : Nat) (err : Error) (r' : Registry),
        Charts.insert_data r now idx label v = (.error err, r') →
        ∀ j, (Registry.lookupRaw r' j).map Entry.chart = (Registry.lookupRaw r j).map Entry.chart) := by
  refine ⟨?_, ?_, ?_⟩
  · intro c' hc'
    cases hget : Lines.get c.lines label with
    | none =>
        rw [Chart.insert_data, hget] at hc'
        simp at hc'
    | some lc =>
        obtain ⟨line, color⟩ := lc
        rw [Chart.insert_data_eq c label v line color hget] at hc'
        injection hc' with hc'
        subst hc'
        refine ⟨rfl, ?_, ?_⟩
        · intro l' hl'
          exact Lines.get_insert_ne c.lines label l' _ hl'
        · intro line' color' hget'
          have hh : (line, color) = (line', color') := by
            injection hget'
          have h1 : line = line' := congrArg Prod.fst hh
          have h2 : color = color' := congrArg Prod.snd hh
          subst h1
          subst h2
          exact Lines.get_insert_self c.lines label _
  · intro ct line
    cases ct with
    | stack => exact Or.inl rfl
    | passThru n =>
        by_cases hn : line.length = n
        · exact Or.inr (by simp [lineStep, hn])
        · exact Or.inl (by simp [lineStep, hn])
  · intro r now idx err r' heq j
    cases hfind : Registry.find r now idx with
    | none =>
        have hcomp : Charts.insert_data r now idx label v
            = (.error Error.invalidChartNumberError, r) := by
          simp [Charts.insert_data, hfind]
        rw [hcomp] at heq
        injection heq with h1 h2
        rw [h2]
    | some e =>
        obtain ⟨hraw, _⟩ := Registry.lookupRaw_of_find r now idx e hfind
        cases hins : Chart.insert_data e.chart label v with
        | ok c2 =>
            have hcomp : Charts.insert_data r now idx label v
                = (.ok (), Registry.touch r now idx c2) := by
              simp [Charts.insert_data, hfind, hins]
            rw [hcomp] at heq
            injection heq with h1 h2
            simp at h1
        | error err2 =>
            have hcomp : Charts.insert_data r now idx label v
                = (.error err2, Registry.touch r now idx e.chart) := by
              simp [Charts.insert_data, hfind, hins]
            rw [hcomp] at heq
            injection heq with h1 h2
            rw [← h2]
            by_cases hj : j = idx
            · subst hj
              rw [Registry.lookupRaw_touch_self, hraw]
              rfl
            · rw [Registry.lookupRaw_touch_ne _ _ _ _ _ hj]

/-- Witness for C6: on a chart with labels "a" (holding [5]) and "b", a
successful insert into "a" appends and leaves "b" and the metadata alone;
inserting into the unknown label "z" fails and leaves the stored chart
unchanged. -/
theorem insert_sample_frame_witness :
    Lines.get ({ info := (Chart.new "T" ChartType.stack (Duration.from_millis 1) { start := 0, stop := 1 }).info, lines := Lines.insert [("a", ([5], LineColor.init 1 2 3))] "a" (lineStep ChartType.stack [5] 7, LineColor.init 1 2 3) } : Chart).lines "b"
      = Lines.get ({ info := (Chart.new "T" ChartType.stack (Duration.from_millis 1) { start := 0, stop := 1 }).info, lines := [("a", ([5], LineColor.init 1 2 3))] } : Chart).lines "b"
    ∧ (Registry.lookupRaw (Charts.insert_data [(1, { chart := { info := (Chart.new "T" ChartType.stack (Duration.from_millis 1) { start := 0, stop := 1 }).info, lines := [("a", ([5], LineColor.init 1 2 3))] }, tti := 10, lastAccess := 0 })] 0 1 "z" 7).2 1).map Entry.chart
      = (Registry.lookupRaw [(1, { chart := { info := (Chart.new "T" ChartType.stack (Duration.from_millis 1) { start := 0, stop := 1 }).info, lines := [("a", ([5], LineColor.init 1 2 3))] }, tti := 10, lastAccess := 0 })] 1).map Entry.chart := by
  refine ⟨?_, ?_⟩
  · exact (((insert_sample_frame { info := (Chart.new "T" ChartType.stack (Duration.from_millis 1) { start := 0, stop := 1 }).info, lines := [("a", ([5], LineColor.init 1 2 3))] } "a" 7).1 _ rfl).2.1) "b" (by decide)
  · exact ((insert_sample_frame { info := (Chart.new "T" ChartType.stack (Duration.from_millis 1) { start := 0, stop := 1 }).info, lines := [("a", ([5], LineColor.init 1 2 3))] } "z" 7).2.2)
      [(1, { chart := { info := (Chart.new "T" ChartType.stack (Duration.from_millis 1) { start := 0, stop := 1 }).info, lines := [("a", ([5], LineColor.init 1 2 3))] }, tti := 10, lastAccess := 0 })]
      0 1 Error.invalidLineLabelError _ rfl 1

theorem Registry.lookupRaw_touch_lastAccess (r : Registry) (now idx : Nat) (c : Chart)
    (e0 : Entry) (h : Registry.lookupRaw r idx = some e0) :
    ∀ e2, Registry.lookupRaw (Registry.touch r now idx c) idx = some e2 → e2.lastAccess = now := by
  intro e2 h2
  rw [Registry.lookupRaw_touch_self, h] at h2
  have h3 : some ({ e0 with chart := c, lastAccess := now } : Entry) = some e2 := h2
  injection h3 with h4
  rw [← h4]

/-- C7: the lines snapshot serializes the chart's lines as an object
mapping each label to the pair of its ordered sample array and its
`{r, g, b}` color object; in the spec's concrete scenario — capacity-3
sliding window, label "sensorA" colored (255,0,0), samples 1, 2, 3, 4 —
it yields exactly `{"sensorA": [[2,3,4], {"r":255,"g":0,"b":0}]}`. -/
theorem snapshot_lines_shape (r : Registry) (now idx : Nat) (e : Entry)
    (h : Registry.find r now idx = some e) :
    (Charts.get_lines_as_json r now idx).1
      = .ok (Json.obj (e.chart.lines.map (fun p =>
          (p.1, Json.arr [Json.arr (p.2.1.map Json.num),
            Json.obj [("r", Json.num p.2.2.r), ("g", Json.num p.2.2.g), ("b", Json.num p.2.2.b)]]))))
    ∧ (Charts.get_lines_as_json
        (Charts.insert_data
          (Charts.insert_data
            (Charts.insert_data
              (Charts.insert_data
                (Charts.new_label
                  (Charts.insert_chart [] 0 1 (Chart.new "Temp" (ChartType.passThru 3) (Duration.from_millis 1000) { start := 0, stop := 100 }) 60000).2
                  0 1 "sensorA" (LineColor.init 255 0 0)).2
                0 1 "sensorA" 1).2
              0 1 "sensorA" 2).2
            0 1 "sensorA" 3).2
          0 1 "sensorA" 4).2
        0 1).1
      = .ok (Json.obj [("sensorA", Json.arr [Json.arr [Json.num 2, Json.num 3, Json.num 4],
          Json.obj [("r", Json.num ((255 : Nat) : ℚ)), ("g", Json.num ((0 : Nat) : ℚ)), ("b", Json.num ((0 : Nat) : ℚ))]])]) := by
  constructor
  · simp [Charts.get_lines_as_json, h, linesToJson, Line.toJson, LineColor.toJson]
  · rfl

/-- Witness for C7: the concrete scenario itself, through a registry that
holds the chart (discharging the existence hypothesis on chart 1). -/
theorem snapshot_lines_shape_witness :
    (Charts.get_lines_as_json [(1, { chart := { info := (Chart.new "Temp" (ChartType.passThru 3) (Duration.from_millis 1000) { start := 0, stop := 100 }).info, lines := [("sensorA", ([2, 3, 4], LineColor.init 255 0 0))] }, tti := 60000, lastAccess := 0 })] 0 1).1
      = .ok (Json.obj [("sensorA", Json.arr [Json.arr [Json.num 2, Json.num 3, Json.num 4],
          Json.obj [("r", Json.num ((255 : Nat) : ℚ)), ("g", Json.num ((0 : Nat) : ℚ)), ("b", Json.num ((0 : Nat) : ℚ))]])]) := by
  have h := snapshot_lines_shape
    [(1, { chart := { info := (Chart.new "Temp" (ChartType.passThru 3) (Duration.from_millis 1000) { start := 0, stop := 100 }).info, lines := [("sensorA", ([2, 3, 4], LineColor.init 255 0 0))] }, tti := 60000, lastAccess := 0 })]
    0 1
    { chart := { info := (Chart.new "Temp" (ChartType.passThru 3) (Duration.from_millis 1000) { start := 0, stop := 100 }).info, lines := [("sensorA", ([2, 3, 4], LineColor.init 255 0 0))] }, tti := 60000, lastAccess := 0 }
    rfl
  exact h.1

/-- C8: for a chart created with the given metadata, the metadata snapshot
is an object with exactly the fields `caption`, `chart_type` (the bare tag
for `Stack`, the tag with the integer capacity for `PassThru`), `interval`
(a secs/nanos pair) and `y_range` (a start/end pair), holding the values
supplied at creation. -/
theorem snapshot_metadata_round_trip (r : Registry) (now idx : Nat) (caption : String)
    (ct : ChartType) (interval : Duration) (y_range : Range) (tti : Nat)
    (h : Charts.contains r now idx = false) :
    (Charts.get_info_as_json (Charts.insert_chart r now idx (Chart.new caption ct interval y_range) tti).2 now idx).1
      = .ok (Json.obj [("caption", Json.str caption),
          ("chart_type", match ct with
            | ChartType.stack => Json.str "Stack"
            | ChartType.passThru n => Json.obj [("PassThru", Json.num n)]),
          ("interval", Json.obj [("secs", Json.num interval.secs), ("nanos", Json.num interval.nanos)]),
          ("y_range", Json.obj [("start", Json.num y_range.start), ("end", Json.num y_range.stop)])]) := by
  cases ct with
  | stack =>
      simp [Charts.insert_chart, h, Charts.get_info_as_json, Registry.find,
        Registry.lookupRaw_append_right _ _ _ (Registry.lookupRaw_erase_self r idx),
        Registry.lookupRaw, Entry.live, Chart.new, ChartInfo.toJson, ChartType.toJson,
        Duration.toJson, Range.toJson]
  | passThru n =>
      simp [Charts.insert_chart, h, Charts.get_info_as_json, Registry.find,
        Registry.lookupRaw_append_right _ _ _ (Registry.lookupRaw_erase_self r idx),
        Registry.lookupRaw, Entry.live, Chart.new, ChartInfo.toJson, ChartType.toJson,
        Duration.toJson, Range.toJson]

/-- Witness for C8: both retention tags at concrete creation inputs in an
empty registry. -/
theorem snapshot_metadata_round_trip_witness :
    (Charts.get_info_as_json (Charts.insert_chart [] 0 7 (Chart.new "Temp" (ChartType.passThru 3) (Duration.from_millis 1000) { start := 0, stop := 100 }) 60000).2 0 7).1
      = .ok (Json.obj [("caption", Json.str "Temp"),
          ("chart_type", Json.obj [("PassThru", Json.num ((3 : Nat) : ℚ))]),
          ("interval", Json.obj [("secs", Json.num (((Duration.from_millis 1000).secs : Nat) : ℚ)), ("nanos", Json.num (((Duration.from_millis 1000).nanos : Nat) : ℚ))]),
          ("y_range", Json.obj [("start", Json.num 0), ("end", Json.num 100)])])
    ∧ (Charts.get_info_as_json (Charts.insert_chart [] 0 2 (Chart.new "Log" ChartType.stack (Duration.from_millis 500) { start := -1, stop := 1 }) 1000).2 0 2).1
      = .ok (Json.obj [("caption", Json.str "Log"),
          ("chart_type", Json.str "Stack"),
          ("interval", Json.obj [("secs", Json.num (((Duration.from_millis 500).secs : Nat) : ℚ)), ("nanos", Json.num (((Duration.from_millis 500).nanos : Nat) : ℚ))]),
          ("y_range", Json.obj [("start", Json.num (-1)), ("end", Json.num 1)])]) := by
  constructor
  · exact snapshot_metadata_round_trip [] 0 7 "Temp" (ChartType.passThru 3)
      (Duration.from_millis 1000) { start := 0, stop := 100 } 60000 rfl
  · exact snapshot_metadata_round_trip [] 0 2 "Log" ChartType.stack
      (Duration.from_millis 500) { start := -1, stop := 1 } 1000 rfl

/-- C9: once a chart has been idle for longer than its configured idle
timeout, `contains` reports false and every operation on its id fails with
`InvalidChartNumberError` (`UnknownChart`), leaving the registry as it
was — observably the chart never existed; and every successful operation
addressing an id (sample insertion, label registration, lines snapshot)
records the operation time as the entry's new last access, resetting the
idle timer. -/
theorem idle_timeout_expiry (r : Registry) (t idx : Nat) (e : Entry)
    (label : String) (v : ℚ) (color : LineColor)
    (hraw : Registry.lookupRaw r idx = some e) (hexp : e.lastAccess + e.tti < t) :
    Charts.contains r t idx = false
    ∧ Charts.insert_data r t idx label v = (.error Error.invalidChartNumberError, r)
    ∧ Charts.new_label r t idx label color = (.error Error.invalidChartNumberError, r)
    ∧ (Charts.get_lines_as_json r t idx).1 = .error Error.invalidChartNumberError
    ∧ (Charts.get_info_as_json r t idx).1 = .error Error.invalidChartNumberError
    ∧ (∀ (r2 : Registry) (t2 idx2 : Nat) (lab : String) (w : ℚ) (r2' : Registry),
        Charts.insert_data r2 t2 idx2 lab w = (.ok (), r2') →
        ∀ e2, Registry.lookupRaw r2' idx2 = some e2 → e2.lastAccess = t2)
    ∧ (∀ (r2 : Registry) (t2 idx2 : Nat) (lab : String) (col : LineColor) (r2' : Registry),
        Charts.new_label r2 t2 idx2 lab col = (.ok (), r2') →
        ∀ e2, Registry.lookupRaw r2' idx2 = some e2 → e2.lastAccess = t2)
    ∧ (∀ (r2 : Registry) (t2 idx2 : Nat) (out : Json) (r2' : Registry),
        Charts.get_lines_as_json r2 t2 idx2 = (.ok out, r2') →
        ∀ e2, Registry.lookupRaw r2' idx2 = some e2 → e2.lastAccess = t2) := by
  have hdead : Entry.live e t = false := by
    simp [Entry.live]
    omega
  have hfind : Registry.find r t idx = none := by
    simp [Registry.find, hraw, hdead]
  refine ⟨?_, ?_, ?_, ?_, ?_, ?_, ?_, ?_⟩
  · simp [Charts.contains, hfind]
  · simp [Charts.insert_data, hfind]
  · simp [Charts.new_label, hfind]
  · simp [Charts.get_lines_as_json, hfind]
  · simp [Charts.get_info_as_json, hfind]
  · intro r2 t2 idx2 lab w r2' heq
    cases hfind2 : Registry.find r2 t2 idx2 with
    | none =>
        have hcomp : Charts.insert_data r2 t2 idx2 lab w
            = (.error Error.invalidChartNumberError, r2) := by
          simp [Charts.insert_data, hfind2]
        rw [hcomp] at heq
        injection heq with h1 h2
        simp at h1
    | some e0 =>
        obtain ⟨hraw0, _⟩ := Registry.lookupRaw_of_find r2 t2 idx2 e0 hfind2
        cases hins : Chart.insert_data e0.chart lab w with
        | error err2 =>
            have hcomp : Charts.insert_data r2 t2 idx2 lab w
                = (.error err2, Registry.touch r2 t2 idx2 e0.chart) := by
              simp [Charts.insert_data, hfind2, hins]
            rw [hcomp] at heq
            injection heq with h1 h2
            simp at h1
        | ok c2 =>
            have hcomp : Charts.insert_data r2 t2 idx2 lab w
                = (.ok (), Registry.touch r2 t2 idx2 c2) := by
              simp [Charts.insert_data, hfind2, hins]
            rw [hcomp] at heq
            injection heq with h1 h2
            rw [← h2]
            exact Registry.lookupRaw_touch_lastAccess r2 t2 idx2 c2 e0 hraw0
  · intro r2 t2 idx2 lab col r2' heq
    cases hfind2 : Registry.find r2 t2 idx2 with
    | none =>
        have hcomp : Charts.new_label r2 t2 idx2 lab col
            = (.error Error.invalidChartNumberError, r2) := by
          simp [Charts.new_label, hfind2]
        rw [hcomp] at heq
        injection heq with h1 h2
        simp at h1
    | some e0 =>
        obtain ⟨hraw0, _⟩ := Registry.lookupRaw_of_find r2 t2 idx2 e0 hfind2
        have hcomp : Charts.new_label r2 t2 idx2 lab col
            = (.ok (), Registry.touch r2 t2 idx2 (Chart.new_label e0.chart lab col)) := by
          simp [Charts.new_label, hfind2]
        rw [hcomp] at heq
        injection heq with h1 h2
        rw [← h2]
        exact Registry.lookupRaw_touch_lastAccess r2 t2 idx2 _ e0 hraw0
  · intro r2 t2 idx2 out r2' heq
    cases hfind2 : Registry.find r2 t2 idx2 with
    | none =>
        have hcomp : Charts.get_lines_as_json r2 t2 idx2
            = (.error Error.invalidChartNumberError, r2) := by
          simp [Charts.get_lines_as_json, hfind2]
        rw [hcomp] at heq
        injection heq with h1 h2
        simp at h1
    | some e0 =>
        obtain ⟨hraw0, _⟩ := Registry.lookupRaw_of_find r2 t2 idx2 e0 hfind2
        have hcomp : Charts.get_lines_as_json r2 t2 idx2
            = (.ok (linesToJson e0.chart.lines), Registry.touch r2 t2 idx2 e0.chart) := by
          simp [Charts.get_lines_as_json, hfind2]
        rw [hcomp] at heq
        injection heq with h1 h2
        rw [← h2]
        exact Registry.lookupRaw_touch_lastAccess r2 t2 idx2 _ e0 hraw0

/-- Witness for C9: chart 1 was last touched at time 0 with idle timeout 5;
at time 6 it is expired and unreachable, and a successful insert into a
live chart at time 3 stamps 3 as the entry's last access. -/
theorem idle_timeout_expiry_witness :
    Charts.contains [(1, { chart := Chart.new "T" ChartType.stack (Duration.from_millis 1) { start := 0, stop := 1 }, tti := 5, lastAccess := 0 })] 6 1 = false
    ∧ Charts.insert_data [(1, { chart := Chart.new "T" ChartType.stack (Duration.from_millis 1) { start := 0, stop := 1 }, tti := 5, lastAccess := 0 })] 6 1 "a" 2
        = (.error Error.invalidChartNumberError, [(1, { chart := Chart.new "T" ChartType.stack (Duration.from_millis 1) { start := 0, stop := 1 }, tti := 5, lastAccess := 0 })])
    ∧ (∀ e2, Registry.lookupRaw (Charts.insert_data [(1, { chart := Chart.new_label (Chart.new "T" ChartType.stack (Duration.from_millis 1) { start := 0, stop := 1 }) "a" (LineColor.init 1 2 3), tti := 10, lastAccess := 0 })] 3 1 "a" 2).2 1 = some e2 → e2.lastAccess = 3) := by
  have h := idle_timeout_expiry
    [(1, { chart := Chart.new "T" ChartType.stack (Duration.from_millis 1) { start := 0, stop := 1 }, tti := 5, lastAccess := 0 })]
    6 1
    { chart := Chart.new "T" ChartType.stack (Duration.from_millis 1) { start := 0, stop := 1 }, tti := 5, lastAccess := 0 }
    "a" 2 (LineColor.init 1 2 3)
    rfl (by decide)
  refine ⟨h.1, h.2.1, ?_⟩
  exact h.2.2.2.2.2.1
    [(1, { chart := Chart.new_label (Chart.new "T" ChartType.stack (Duration.from_millis 1) { start := 0, stop := 1 }) "a" (LineColor.init 1 2 3), tti := 10, lastAccess := 0 })]
    3 1 "a" 2 _ rfl

end Dopio
